import Mathlib

/-!
Shallow embedding of the voting, moderation, feed and profile logic of a small
discussion-board client (React + Supabase).  Persistent tables are modelled as
lists of rows; each UI handler becomes a state-passing function that also
returns the list of backend operations it issued, so that ordering and
frame properties of the handlers can be stated directly.
-/

/-- Row of the `votes` table. -/
structure Vote where
  id : Nat
  user_id : String
  post_id : String
  vote_type : Int
  deriving Repr, DecidableEq

/-- Row of the `posts` table; `created_at` is an epoch timestamp. -/
structure Post where
  id : String
  title : String
  content : Option String
  url : Option String
  author_id : String
  score : Int
  created_at : Nat
  deriving Repr, DecidableEq

/-- Client-visible state of the `votes` table together with a supply of fresh
row ids (the backend assigns a fresh primary key on insert). -/
structure VoteStore where
  votes : List Vote
  nextId : Nat
  deriving Repr, DecidableEq

/-- Backend calls a handler can issue, in the order it issues them. -/
inductive BackendOp where
  | readVote (user_id post_id : String)
  | insertVote (user_id post_id : String) (vote_type : Int)
  | deleteVoteById (id : Nat)
  | updateVoteById (id : Nat) (vote_type : Int)
  | deleteVotesByPost (post_id : String)
  | deletePostById (post_id : String)
  deriving Repr, DecidableEq

/-- Lookup of the requesting user's vote on a post, as issued by `handleVote`
(`.eq('user_id', ...).eq('post_id', ...).maybeSingle()`). -/
def findVote (s : VoteStore) (u p : String) : Option Vote :=
  s.votes.find? (fun v => decide (v.user_id = u ∧ v.post_id = p))

/-- All vote rows of user `u` on post `p`. -/
def votesFor (s : VoteStore) (u p : String) : List Vote :=
  s.votes.filter (fun v => decide (v.user_id = u ∧ v.post_id = p))

/-- Vote reconciler `handleVote` from `PostCard.tsx`.  The guard
`if (!user || voting) return` becomes the `none`/`true` early exits; the three
mutation branches follow the source: delete on same direction, update on
opposite direction, insert when no vote exists. -/
def handleVote (user : Option String) (voting : Bool) (postId : String)
    (voteType : Int) (s : VoteStore) : VoteStore × List BackendOp :=
  match user with
  | none => (s, [])
  | some uid =>
    if voting then (s, [])
    else
      match findVote s uid postId with
      | some existingVote =>
        if existingVote.vote_type = voteType then
          ({ votes := s.votes.filter (fun v => decide (v.id ≠ existingVote.id)),
             nextId := s.nextId },
           [BackendOp.readVote uid postId,
            BackendOp.deleteVoteById existingVote.id])
        else
          ({ votes := s.votes.map (fun v =>
               if v.id = existingVote.id then { v with vote_type := voteType } else v),
             nextId := s.nextId },
           [BackendOp.readVote uid postId,
            BackendOp.updateVoteById existingVote.id voteType])
      | none =>
        ({ votes := s.votes ++ [{ id := s.nextId, user_id := uid, post_id := postId,
                                  vote_type := voteType }],
           nextId := s.nextId + 1 },
         [BackendOp.readVote uid postId,
          BackendOp.insertVote uid postId voteType])

/-- Table invariant: at most one vote row per (user, post) pair. -/
def AtMostOnePerPair (s : VoteStore) : Prop :=
  s.votes.Pairwise (fun a b => a.user_id ≠ b.user_id ∨ a.post_id ≠ b.post_id)

/-- A vote found by `findVote` is a row of the store for that (user, post). -/
theorem findVote_spec {s : VoteStore} {u p : String} {ev : Vote}
    (h : findVote s u p = some ev) :
    ev ∈ s.votes ∧ ev.user_id = u ∧ ev.post_id = p := by
  have hmem := List.mem_of_find?_eq_some h
  have hpred := List.find?_some h
  simp only [decide_eq_true_eq] at hpred
  exact ⟨hmem, hpred.1, hpred.2⟩

/-- Membership in `votesFor`. -/
theorem mem_votesFor {s : VoteStore} {u p : String} {v : Vote} :
    v ∈ votesFor s u p ↔ v ∈ s.votes ∧ v.user_id = u ∧ v.post_id = p := by
  simp [votesFor, List.mem_filter, and_assoc]

/-- `findVote` misses exactly when no row of the pair exists. -/
theorem findVote_eq_none_iff {s : VoteStore} {u p : String} :
    findVote s u p = none ↔ votesFor s u p = [] := by
  simp only [findVote, List.find?_eq_none, votesFor, List.filter_eq_nil_iff,
    decide_eq_true_eq]

/-- Under the one-row-per-pair invariant, a successful lookup pins down the
whole filtered list. -/
theorem votesFor_eq_single {s : VoteStore} {u p : String} {ev : Vote}
    (hone : AtMostOnePerPair s) (h : findVote s u p = some ev) :
    votesFor s u p = [ev] := by
  obtain ⟨hmem, hu, hp⟩ := findVote_spec h
  have hev : ev ∈ votesFor s u p := mem_votesFor.mpr ⟨hmem, hu, hp⟩
  have hpw : (votesFor s u p).Pairwise
      (fun a b => a.user_id ≠ b.user_id ∨ a.post_id ≠ b.post_id) :=
    hone.sublist (List.filter_sublist _)
  match hfv : votesFor s u p with
  | [] => rw [hfv] at hev; cases hev
  | [a] =>
    rw [hfv] at hev
    simp only [List.mem_singleton] at hev
    rw [hev]
  | a :: b :: t =>
    rw [hfv] at hpw
    have hra : a ∈ votesFor s u p := by rw [hfv]; simp
    have hrb : b ∈ votesFor s u p := by rw [hfv]; simp
    obtain ⟨_, hau, hap⟩ := mem_votesFor.mp hra
    obtain ⟨_, hbu, hbp⟩ := mem_votesFor.mp hrb
    have := (List.pairwise_cons.mp hpw).1 b (by simp)
    rcases this with hne | hne
    · exact absurd (hau.trans hbu.symm) hne
    · exact absurd (hap.trans hbp.symm) hne

/-- Unfolding of `handleVote` in the no-existing-vote branch. -/
theorem handleVote_insert {s : VoteStore} {u p : String} {d : Int}
    (h : findVote s u p = none) :
    handleVote (some u) false p d s =
      ({ votes := s.votes ++ [{ id := s.nextId, user_id := u, post_id := p,
                                vote_type := d }],
         nextId := s.nextId + 1 },
       [BackendOp.readVote u p, BackendOp.insertVote u p d]) := by
  simp [handleVote, h]

/-- Unfolding of `handleVote` in the same-direction (toggle-off) branch. -/
theorem handleVote_delete {s : VoteStore} {u p : String} {d : Int} {ev : Vote}
    (hev : findVote s u p = some ev) (hsame : ev.vote_type = d) :
    handleVote (some u) false p d s =
      ({ votes := s.votes.filter (fun v => decide (v.id ≠ ev.id)),
         nextId := s.nextId },
       [BackendOp.readVote u p, BackendOp.deleteVoteById ev.id]) := by
  simp [handleVote, hev, hsame]

/-- Unfolding of `handleVote` in the opposite-direction (update) branch. -/
theorem handleVote_update {s : VoteStore} {u p : String} {d : Int} {ev : Vote}
    (hev : findVote s u p = some ev) (hdiff : ev.vote_type ≠ d) :
    handleVote (some u) false p d s =
      ({ votes := s.votes.map (fun v =>
           if v.id = ev.id then { v with vote_type := d } else v),
         nextId := s.nextId },
       [BackendOp.readVote u p, BackendOp.updateVoteById ev.id d]) := by
  simp [handleVote, hev, hdiff]

/-- Inserting the fresh row makes it the unique row of its pair. -/
theorem votesFor_insert {s : VoteStore} {u p : String} {d : Int}
    (h : findVote s u p = none) :
    votesFor { votes := s.votes ++ [{ id := s.nextId, user_id := u, post_id := p,
                                      vote_type := d }],
               nextId := s.nextId + 1 } u p
      = [{ id := s.nextId, user_id := u, post_id := p, vote_type := d }] := by
  have h0 : votesFor s u p = [] := findVote_eq_none_iff.mp h
  simp only [votesFor] at h0 ⊢
  rw [List.filter_append, h0]
  simp

/-- Deleting the looked-up row by id empties the pair's rows. -/
theorem votesFor_delete {s : VoteStore} {u p : String} {ev : Vote} {n : Nat}
    (hone : AtMostOnePerPair s) (hev : findVote s u p = some ev) :
    votesFor { votes := s.votes.filter (fun v => decide (v.id ≠ ev.id)),
               nextId := n } u p = [] := by
  have hsingle := votesFor_eq_single hone hev
  simp only [votesFor] at hsingle ⊢
  rw [List.filter_comm, hsingle]
  simp

/-- Updating the looked-up row by id rewrites the pair's unique row in place. -/
theorem votesFor_update {s : VoteStore} {u p : String} {d : Int} {ev : Vote} {n : Nat}
    (hone : AtMostOnePerPair s) (hev : findVote s u p = some ev) :
    votesFor { votes := s.votes.map (fun v =>
                 if v.id = ev.id then { v with vote_type := d } else v),
               nextId := n } u p = [{ ev with vote_type := d }] := by
  have hsingle := votesFor_eq_single hone hev
  simp only [votesFor] at hsingle ⊢
  rw [List.filter_map]
  have hpred : (fun v : Vote => decide (v.user_id = u ∧ v.post_id = p)) ∘
      (fun v : Vote => if v.id = ev.id then { v with vote_type := d } else v)
      = fun v : Vote => decide (v.user_id = u ∧ v.post_id = p) := by
    funext v
    by_cases hid : v.id = ev.id <;> simp [hid]
  rw [hpred, hsingle]
  simp

/-- C1: for every (user, post, requested direction) the vote reconciler takes
exactly one of three mutations, decided by the user's existing vote on the
post: no existing vote means a fresh row with the requested direction is
inserted; an existing vote of the same direction is deleted; an existing vote
of the opposite direction is updated in place to the requested direction. -/
theorem vote_reconciler_cases (s : VoteStore) (u p : String) (d : Int) (ev : Vote)
    (hone : AtMostOnePerPair s) :
    (findVote s u p = none →
      (handleVote (some u) false p d s).1.votes
          = s.votes ++ [{ id := s.nextId, user_id := u, post_id := p, vote_type := d }] ∧
      votesFor (handleVote (some u) false p d s).1 u p
          = [{ id := s.nextId, user_id := u, post_id := p, vote_type := d }] ∧
      (handleVote (some u) false p d s).2
          = [BackendOp.readVote u p, BackendOp.insertVote u p d]) ∧
    (findVote s u p = some ev → ev.vote_type = d →
      votesFor (handleVote (some u) false p d s).1 u p = [] ∧
      (∀ v, v ∈ (handleVote (some u) false p d s).1.votes ↔
        v ∈ s.votes ∧ v.id ≠ ev.id) ∧
      (handleVote (some u) false p d s).2
          = [BackendOp.readVote u p, BackendOp.deleteVoteById ev.id]) ∧
    (findVote s u p = some ev → ev.vote_type ≠ d →
      votesFor (handleVote (some u) false p d s).1 u p = [{ ev with vote_type := d }] ∧
      (handleVote (some u) false p d s).1.votes.length = s.votes.length ∧
      (handleVote (some u) false p d s).2
          = [BackendOp.readVote u p, BackendOp.updateVoteById ev.id d]) := by
  refine ⟨fun hnone => ?_, fun hev hsame => ?_, fun hev hdiff => ?_⟩
  · rw [handleVote_insert hnone]
    exact ⟨rfl, votesFor_insert hnone, rfl⟩
  · rw [handleVote_delete hev hsame]
    refine ⟨votesFor_delete hone hev, fun v => ?_, rfl⟩
    simp [List.mem_filter]
  · rw [handleVote_update hev hdiff]
    exact ⟨votesFor_update hone hev, by simp, rfl⟩

theorem vote_reconciler_cases_witness :
    votesFor (handleVote (some "u") false "p" (-1)
        { votes := [{ id := 0, user_id := "u", post_id := "p", vote_type := 1 }],
          nextId := 1 }).1 "u" "p"
      = [{ id := 0, user_id := "u", post_id := "p", vote_type := -1 }] :=
  ((vote_reconciler_cases
      { votes := [{ id := 0, user_id := "u", post_id := "p", vote_type := 1 }],
        nextId := 1 } "u" "p" (-1)
      { id := 0, user_id := "u", post_id := "p", vote_type := 1 }
      (by simp [AtMostOnePerPair])).2.2 rfl (by decide)).1

/-- C2: starting from a state with no vote by the user on the post, voting the
same direction twice first creates the row and then deletes it, leaving no
vote row for the (user, post) pair. -/
theorem vote_toggle_twice (s : VoteStore) (u p : String) (d : Int)
    (h0 : votesFor s u p = []) :
    votesFor (handleVote (some u) false p d s).1 u p
        = [{ id := s.nextId, user_id := u, post_id := p, vote_type := d }] ∧
    votesFor (handleVote (some u) false p d
        (handleVote (some u) false p d s).1).1 u p = [] := by
  have h1 : findVote s u p = none := findVote_eq_none_iff.mpr h0
  rw [handleVote_insert h1]
  refine ⟨votesFor_insert h1, ?_⟩
  set newv : Vote := { id := s.nextId, user_id := u, post_id := p, vote_type := d }
    with hnewv
  have hf1 : findVote { votes := s.votes ++ [newv], nextId := s.nextId + 1 } u p
      = some newv := by
    simp only [findVote] at h1 ⊢
    rw [List.find?_append, h1]
    simp [hnewv]
  rw [handleVote_delete hf1 rfl]
  simp only [votesFor, List.filter_append, hnewv]
  rw [List.filter_comm]
  simp only [votesFor] at h0
  rw [h0]
  simp

theorem vote_toggle_twice_witness :
    votesFor (handleVote (some "u") false "p" 1
        (handleVote (some "u") false "p" 1
          { votes := [], nextId := 0 }).1).1 "u" "p" = [] :=
  (vote_toggle_twice { votes := [], nextId := 0 } "u" "p" 1 rfl).2

/-- C3: on a state satisfying the one-row-per-(user, post) invariant, voting
the direction opposite to the existing vote rewrites that single row's
direction in place: the invariant is preserved, the pair's rows become exactly
the same row with the new direction, and no row is inserted. -/
theorem vote_switch_updates_single_row (s : VoteStore) (u p : String) (d : Int)
    (ev : Vote) (hone : AtMostOnePerPair s) (hev : findVote s u p = some ev)
    (hdiff : ev.vote_type ≠ d) :
    AtMostOnePerPair (handleVote (some u) false p d s).1 ∧
    votesFor (handleVote (some u) false p d s).1 u p = [{ ev with vote_type := d }] ∧
    (handleVote (some u) false p d s).1.votes.length = s.votes.length := by
  rw [handleVote_update hev hdiff]
  refine ⟨?_, votesFor_update hone hev, by simp⟩
  simp only [AtMostOnePerPair] at hone ⊢
  rw [List.pairwise_map]
  refine hone.imp fun {a b} hab => ?_
  by_cases ha : a.id = ev.id <;> by_cases hb : b.id = ev.id <;>
    simpa [ha, hb] using hab

theorem vote_switch_updates_single_row_witness :
    votesFor (handleVote (some "u") false "p" 1
        { votes := [{ id := 5, user_id := "u", post_id := "p", vote_type := -1 },
                    { id := 7, user_id := "w", post_id := "p", vote_type := 1 }],
          nextId := 8 }).1 "u" "p"
      = [{ id := 5, user_id := "u", post_id := "p", vote_type := 1 }] :=
  (vote_switch_updates_single_row
    { votes := [{ id := 5, user_id := "u", post_id := "p", vote_type := -1 },
                { id := 7, user_id := "w", post_id := "p", vote_type := 1 }],
      nextId := 8 } "u" "p" 1
    { id := 5, user_id := "u", post_id := "p", vote_type := -1 }
    (by simp [AtMostOnePerPair]) rfl (by decide)).2.1

/-- C10: with no signed-in user, or while a previous vote request is still in
flight, the vote handler returns at once: the store is unchanged and no
backend operation is issued. -/
theorem vote_guard_frame (s : VoteStore) (p : String) (d : Int) :
    (∀ b : Bool, handleVote none b p d s = (s, [])) ∧
    (∀ u : String, handleVote (some u) true p d s = (s, [])) :=
  ⟨fun _ => rfl, fun _ => rfl⟩

/-- Backend tables touched by the moderation delete. -/
structure DB where
  posts : List Post
  votes : List Vote
  deriving Repr, DecidableEq

/-- Moderation delete `handleDelete` from `PostCard.tsx`: guarded by the admin
flag, the in-flight flag and the confirmation dialog; it then issues the
delete of the post's votes and, even if that step fails
(`votesDeleteFails`), goes on to issue the delete of the post itself
(which itself can fail, `postDeleteFails`). -/
def handleDelete (isAdmin deleting confirmed : Bool)
    (votesDeleteFails postDeleteFails : Bool) (postId : String) (db : DB) :
    DB × List BackendOp :=
  if !isAdmin || deleting then (db, [])
  else if !confirmed then (db, [])
  else
    let votes1 := if votesDeleteFails then db.votes
                  else db.votes.filter (fun v => decide (v.post_id ≠ postId))
    let posts1 := if postDeleteFails then db.posts
                  else db.posts.filter (fun q => decide (q.id ≠ postId))
    ({ posts := posts1, votes := votes1 },
     [BackendOp.deleteVotesByPost postId, BackendOp.deletePostById postId])

/-- C4: the admin delete first issues the delete of all vote rows referencing
the post and then the delete of the post itself; the post delete proceeds
even when the vote-delete step fails; and after a fully successful run no
vote row referencing the post remains (and the post is gone). -/
theorem admin_delete_cascade (db : DB) (p : String) :
    (∀ votesDeleteFails postDeleteFails : Bool,
      (handleDelete true false true votesDeleteFails postDeleteFails p db).2
        = [BackendOp.deleteVotesByPost p, BackendOp.deletePostById p]) ∧
    (∀ votesDeleteFails : Bool,
      (handleDelete true false true votesDeleteFails false p db).1.posts.filter
          (fun q => decide (q.id = p)) = []) ∧
    (handleDelete true false true false false p db).1.votes.filter
        (fun v => decide (v.post_id = p)) = [] := by
  refine ⟨fun _ _ => rfl, fun vf => ?_, ?_⟩
  · simp [handleDelete, List.filter_filter]
  · simp [handleDelete, List.filter_filter]

/-- Order requested by the feed query in `FeedPage.loadPosts`
(`.order('score', descending).order('created_at', descending)`):
`feedBefore a b` says `a` may be served no later than `b`. -/
def feedBefore (a b : Post) : Prop :=
  b.score < a.score ∨ (a.score = b.score ∧ b.created_at ≤ a.created_at)

instance : DecidableRel feedBefore := fun a b => by
  unfold feedBefore; infer_instance

instance : IsTotal Post feedBefore where
  total a b := by
    unfold feedBefore
    rcases lt_trichotomy a.score b.score with h | h | h
    · exact Or.inr (Or.inl h)
    · rcases Nat.le_total b.created_at a.created_at with hc | hc
      · exact Or.inl (Or.inr ⟨h, hc⟩)
      · exact Or.inr (Or.inr ⟨h.symm, hc⟩)
    · exact Or.inl (Or.inl h)

instance : IsTrans Post feedBefore where
  trans a b c hab hbc := by
    unfold feedBefore at hab hbc ⊢
    rcases hab with h | ⟨h, hc⟩ <;> rcases hbc with h' | ⟨h', hc'⟩
    · exact Or.inl (h'.trans h)
    · exact Or.inl (h' ▸ h)
    · exact Or.inl (h ▸ h')
    · exact Or.inr ⟨h.trans h', hc'.trans hc⟩

/-- Serving order of the feed: the fetched posts sorted by descending score,
then descending creation time. -/
def loadPostsOrdered (posts : List Post) : List Post :=
  List.insertionSort feedBefore posts

/-- C5: the loaded feed is a permutation of the posts in which, whenever one
post appears before another, the earlier one has the strictly higher score if
their scores differ, and the later-or-equal creation time if their scores are
equal. -/
theorem feed_order_spec (posts : List Post) :
    (loadPostsOrdered posts).Perm posts ∧
    (loadPostsOrdered posts).Pairwise (fun a b =>
      (a.score ≠ b.score → b.score < a.score) ∧
      (a.score = b.score → b.created_at ≤ a.created_at)) := by
  refine ⟨List.perm_insertionSort feedBefore posts, ?_⟩
  have hs : (loadPostsOrdered posts).Pairwise feedBefore :=
    List.sorted_insertionSort feedBefore posts
  refine hs.imp fun {a b} hab => ?_
  unfold feedBefore at hab
  constructor
  · intro hne
    rcases hab with h | ⟨h, _⟩
    · exact h
    · exact absurd h hne
  · intro heq
    rcases hab with h | ⟨_, hc⟩
    · exact absurd heq (by omega)
    · exact hc

/-- Row of the `profiles` table as selected by the feed query
(`.select('id, username')`). -/
structure ProfileRow where
  id : String
  username : String
  deriving Repr, DecidableEq

/-- Post annotated for display, as assembled in `FeedPage.loadPosts`. -/
structure PostWithAuthor where
  post : Post
  author_username : String
  user_vote : Int
  deriving Repr, DecidableEq

/-- Annotation step of `FeedPage.loadPosts`: each fetched post gets the
author's username (`profiles?.find(...)?.username || 'Unknown'`, so the
fallback also fires when the profile query itself failed, modelled by
`profilesOpt = none`, or when the username is the empty string) and the
requesting user's vote (`userVotes.find(...)?.vote_type || 0`). -/
def annotatePosts (user : Option String) (profilesOpt : Option (List ProfileRow))
    (votes : List Vote) (posts : List Post) : List PostWithAuthor :=
  let userVotes : List Vote :=
    match user with
    | some uid => votes.filter (fun v => decide (v.user_id = uid))
    | none => []
  posts.map (fun post =>
    { post := post
      author_username :=
        match profilesOpt.bind (fun profiles =>
            profiles.find? (fun pr => decide (pr.id = post.author_id))) with
        | some pr => if pr.username = "" then "Unknown" else pr.username
        | none => "Unknown"
      user_vote :=
        match userVotes.find? (fun v => decide (v.post_id = post.id)) with
        | some v => if v.vote_type = 0 then 0 else v.vote_type
        | none => 0 })

/-- C6: the annotation attaches, to every loaded post, the author's username
with fallback label "Unknown" when the profile lookup fails, and the
requesting user's current vote direction on the post, which is 0 when no user
is signed in or the user has no vote on it. -/
theorem feed_annotation (user : Option String)
    (profilesOpt : Option (List ProfileRow)) (votes : List Vote)
    (posts : List Post)
    (hpair : votes.Pairwise (fun a b => a.user_id ≠ b.user_id ∨ a.post_id ≠ b.post_id))
    (husers : ∀ profiles, profilesOpt = some profiles → ∀ pr ∈ profiles,
      pr.username ≠ "") :
    (annotatePosts user profilesOpt votes posts).length = posts.length ∧
    ∀ (i : Nat) (post : Post) (a : PostWithAuthor), posts[i]? = some post →
      (annotatePosts user profilesOpt votes posts)[i]? = some a →
      a.post = post ∧
      (profilesOpt.bind (fun profiles =>
          profiles.find? (fun pr => decide (pr.id = post.author_id))) = none →
        a.author_username = "Unknown") ∧
      (∀ pr, profilesOpt.bind (fun profiles =>
          profiles.find? (fun pr => decide (pr.id = post.author_id))) = some pr →
        a.author_username = pr.username) ∧
      (user = none → a.user_vote = 0) ∧
      (∀ uid, user = some uid →
        ((∀ v ∈ votes, ¬(v.user_id = uid ∧ v.post_id = post.id)) →
          a.user_vote = 0) ∧
        (∀ v ∈ votes, v.user_id = uid → v.post_id = post.id →
          a.user_vote = v.vote_type)) := by
  refine ⟨by simp [annotatePosts], ?_⟩
  intro i post a hpost ha
  simp only [annotatePosts] at ha
  simp only [List.getElem?_map, hpost, Option.map_some] at ha
  obtain rfl : _ = a := Option.some.inj ha
  refine ⟨rfl, ?_, ?_, ?_, ?_⟩
  · intro hnone
    simp only [hnone]
  · intro pr hpr
    have hne : pr.username ≠ "" := by
      match hp : profilesOpt, hpr with
      | some profiles, hpr =>
        rw [Option.some_bind] at hpr
        exact husers profiles rfl pr (List.mem_of_find?_eq_some hpr)
    simp only [hpr, if_neg hne]
  · intro huser
    simp only [huser]
    simp
  · intro uid huser
    simp only [huser]
    constructor
    · intro hnov
      have hfind : (votes.filter (fun v => decide (v.user_id = uid))).find?
          (fun v => decide (v.post_id = post.id)) = none := by
        rw [List.find?_eq_none]
        intro w hw
        obtain ⟨hwv, hwu⟩ := List.mem_filter.mp hw
        simp only [decide_eq_true_eq] at hwu ⊢
        exact fun hwp => hnov w hwv ⟨hwu, hwp⟩
      simp only [hfind]
    · intro v hv hvu hvp
      cases hfd : (votes.filter (fun v => decide (v.user_id = uid))).find?
          (fun v => decide (v.post_id = post.id)) with
      | none =>
        exfalso
        have hvmem : v ∈ votes.filter (fun v => decide (v.user_id = uid)) :=
          List.mem_filter.mpr ⟨hv, by simpa using hvu⟩
        have := List.find?_eq_none.mp hfd v hvmem
        simp [hvp] at this
      | some w =>
        have hwmem := List.mem_of_find?_eq_some hfd
        obtain ⟨hwv, hwu⟩ := List.mem_filter.mp hwmem
        have hwp := List.find?_some hfd
        simp only [decide_eq_true_eq] at hwu hwp
        have hvw : v = w := by
          by_contra hne
          have hsymm : Symmetric (fun a b : Vote =>
              a.user_id ≠ b.user_id ∨ a.post_id ≠ b.post_id) :=
            fun a b h => h.imp Ne.symm Ne.symm
          have := hpair.forall hsymm hv hwv hne
          rcases this with h | h
          · exact h (hvu.trans hwu.symm)
          · exact h (hvp.trans hwp.symm)
        subst hvw
        simp only [hfd]
        by_cases h0 : v.vote_type = 0 <;> simp [h0]

theorem feed_annotation_witness :
    (annotatePosts (some "u") (some [{ id := "a1", username := "alice" }])
        [{ id := 3, user_id := "u", post_id := "p1", vote_type := 1 }]
        [{ id := "p1", title := "t", content := none, url := none,
           author_id := "a1", score := 0, created_at := 5 }]).length = 1 ∧
    ({ post := { id := "p1", title := "t", content := none, url := none,
                 author_id := "a1", score := 0, created_at := 5 },
       author_username := "alice", user_vote := 1 } : PostWithAuthor).author_username
      = "alice" ∧
    ({ post := { id := "p1", title := "t", content := none, url := none,
                 author_id := "a1", score := 0, created_at := 5 },
       author_username := "alice", user_vote := 1 } : PostWithAuthor).user_vote
      = ({ id := 3, user_id := "u", post_id := "p1", vote_type := 1 } : Vote).vote_type := by
  have h := feed_annotation (some "u") (some [{ id := "a1", username := "alice" }])
    [{ id := 3, user_id := "u", post_id := "p1", vote_type := 1 }]
    [{ id := "p1", title := "t", content := none, url := none,
       author_id := "a1", score := 0, created_at := 5 }]
    (by simp)
    (by
      intro profiles h pr hpr
      obtain rfl : _ = profiles := Option.some.inj h
      simp only [List.mem_singleton] at hpr
      subst hpr
      decide)
  refine ⟨h.1, ?_, ?_⟩
  · exact (h.2 0 _ _ rfl rfl).2.2.1 { id := "a1", username := "alice" } rfl
  · exact ((h.2 0 _ _ rfl rfl).2.2.2.2 "u" rfl).2
      { id := 3, user_id := "u", post_id := "p1", vote_type := 1 } (by simp) rfl rfl

/-- Karma displayed on the profile page:
`posts.reduce((sum, post) => sum + post.score, 0)`. -/
def totalKarma (posts : List Post) : Int :=
  posts.foldl (fun sum post => sum + post.score) 0

/-- Nearest-tenth rounding of a rational, ties toward plus infinity. -/
def roundTenths (q : ℚ) : Int := ⌊q * 10 + 1 / 2⌋

/-- Decimal rendering of `n` tenths with exactly one digit after the point. -/
def renderTenths (n : Int) : String :=
  (if n < 0 then "-" else "") ++ toString (n.natAbs / 10) ++ "." ++
    toString (n.natAbs % 10)

/-- Average-score display of the profile page:
`posts.length > 0 ? (totalKarma / posts.length).toFixed(1) : '0'`.  The
JS float quotient and `toFixed(1)` are modelled by rounding the exact
rational mean to the nearest tenth (ties toward plus infinity); the two can
part ways only when the exact mean sits within one double rounding error of a
tie between neighbouring tenths. -/
def avgScore (posts : List Post) : String :=
  if 0 < posts.length then
    renderTenths (roundTenths ((totalKarma posts : ℚ) / posts.length))
  else "0"

/-- Top post of the profile page:
`posts.reduce((max, post) => post.score > max.score ? post : max)`, which
keeps the first maximal-score post found. -/
def topPost (posts : List Post) : Option Post :=
  match posts with
  | [] => none
  | h :: t =>
    some (t.foldl (fun mx post => if mx.score < post.score then post else mx) h)

/-- Post count displayed on the profile page (`posts.length`). -/
def postCount (posts : List Post) : Nat := posts.length

/-- The reduce with strict comparison agrees with Mathlib's `argmax`, which
also keeps the first maximal element. -/
theorem topPost_eq_argmax (posts : List Post) :
    topPost posts = posts.argmax Post.score := by
  cases posts with
  | nil => rfl
  | cons h t =>
    have key : ∀ (t : List Post) (acc : Post),
        t.foldl (List.argAux fun b c => Post.score c < Post.score b) (some acc)
          = some (t.foldl
              (fun mx post => if mx.score < post.score then post else mx) acc) := by
      intro t
      induction t with
      | nil => intro acc; rfl
      | cons p t ih =>
        intro acc
        simp only [List.foldl_cons, List.argAux]
        by_cases hc : acc.score < p.score
        · simp only [if_pos hc]
          exact ih p
        · simp only [if_neg hc]
          exact ih acc
    show some _ = (h :: t).foldl (List.argAux fun b c => Post.score c < Post.score b) none
    rw [List.foldl_cons]
    exact (key t h).symm

/-- C7: the profile stats return the post count, karma equal to the sum of the
profile's post scores (0 for no posts), the mean score rendered to one
decimal place ("0" for no posts, and within half a tenth of the exact mean
otherwise), and as top post the first post of maximal score. -/
theorem profile_stats_spec (posts : List Post) :
    postCount posts = posts.length ∧
    totalKarma posts = (posts.map Post.score).sum ∧
    totalKarma [] = 0 ∧
    avgScore [] = "0" ∧
    (posts ≠ [] →
      avgScore posts
          = renderTenths (roundTenths ((totalKarma posts : ℚ) / posts.length)) ∧
      |((roundTenths ((totalKarma posts : ℚ) / posts.length) : ℚ)) / 10
          - (totalKarma posts : ℚ) / posts.length| ≤ 1 / 20) ∧
    (posts ≠ [] → ∃ tp, topPost posts = some tp) ∧
    (∀ tp, topPost posts = some tp →
      tp ∈ posts ∧ (∀ q ∈ posts, q.score ≤ tp.score) ∧
      ∀ q ∈ posts, tp.score ≤ q.score → posts.indexOf tp ≤ posts.indexOf q) := by
  refine ⟨rfl, ?_, rfl, rfl, fun hne => ⟨?_, ?_⟩, fun hne => ?_, fun tp htp => ?_⟩
  · rw [List.sum_eq_foldl, List.foldl_map]
    rfl
  · rw [avgScore, if_pos (List.length_pos.mpr hne)]
  · set q : ℚ := (totalKarma posts : ℚ) / posts.length with hq
    have h1 : ((⌊q * 10 + 1 / 2⌋ : Int) : ℚ) ≤ q * 10 + 1 / 2 := Int.floor_le _
    have h2 : q * 10 + 1 / 2 < ((⌊q * 10 + 1 / 2⌋ : Int) : ℚ) + 1 :=
      Int.lt_floor_add_one _
    rw [roundTenths, abs_le]
    constructor <;> [linarith; linarith]
  · cases posts with
    | nil => exact absurd rfl hne
    | cons h t => exact ⟨_, rfl⟩
  · rw [topPost_eq_argmax] at htp
    exact ⟨List.argmax_mem htp, fun q hq => List.le_of_mem_argmax hq htp,
      fun q hq hle => List.index_of_argmax htp hq hle⟩

theorem profile_stats_spec_witness :
    totalKarma
        [{ id := "p1", title := "t1", content := none, url := none,
           author_id := "a", score := 3, created_at := 10 },
         { id := "p2", title := "t2", content := none, url := none,
           author_id := "a", score := 3, created_at := 20 }]
      = (([{ id := "p1", title := "t1", content := none, url := none,
             author_id := "a", score := 3, created_at := 10 },
           { id := "p2", title := "t2", content := none, url := none,
             author_id := "a", score := 3, created_at := 20 }] : List Post).map
          Post.score).sum ∧
    avgScore ([] : List Post) = "0" ∧
    avgScore
        [{ id := "p1", title := "t1", content := none, url := none,
           author_id := "a", score := 3, created_at := 10 },
         { id := "p2", title := "t2", content := none, url := none,
           author_id := "a", score := 3, created_at := 20 }]
      = renderTenths (roundTenths
          ((totalKarma
              [{ id := "p1", title := "t1", content := none, url := none,
                 author_id := "a", score := 3, created_at := 10 },
               { id := "p2", title := "t2", content := none, url := none,
                 author_id := "a", score := 3, created_at := 20 }] : ℚ) /
            ([{ id := "p1", title := "t1", content := none, url := none,
                author_id := "a", score := 3, created_at := 10 },
              { id := "p2", title := "t2", content := none, url := none,
                author_id := "a", score := 3, created_at := 20 }] : List Post).length)) ∧
    ([{ id := "p1", title := "t1", content := none, url := none,
        author_id := "a", score := 3, created_at := 10 },
      { id := "p2", title := "t2", content := none, url := none,
        author_id := "a", score := 3, created_at := 20 }] : List Post).indexOf
        { id := "p1", title := "t1", content := none, url := none,
          author_id := "a", score := 3, created_at := 10 }
      ≤ ([{ id := "p1", title := "t1", content := none, url := none,
            author_id := "a", score := 3, created_at := 10 },
          { id := "p2", title := "t2", content := none, url := none,
            author_id := "a", score := 3, created_at := 20 }] : List Post).indexOf
          { id := "p2", title := "t2", content := none, url := none,
            author_id := "a", score := 3, created_at := 20 } := by
  have h := profile_stats_spec
    [{ id := "p1", title := "t1", content := none, url := none,
       author_id := "a", score := 3, created_at := 10 },
     { id := "p2", title := "t2", content := none, url := none,
       author_id := "a", score := 3, created_at := 20 }]
  refine ⟨h.2.1, h.2.2.2.1, (h.2.2.2.2.1 (by decide)).1, ?_⟩
  exact (h.2.2.2.2.2.2 _ rfl).2.2 _ (by decide) (by decide)

/-- JS truthiness of a nullable string field (`null` and `''` are falsy). -/
def truthyStr : Option String → Bool
  | none => false
  | some s => decide (s ≠ "")

/-- Filter selection of the profile page. -/
inductive FilterType where
  | all
  | text
  | link
  deriving Repr, DecidableEq

/-- Filter step of `ProfilePage.applyFiltersAndSort`:
`filterBy === 'text'` keeps `p.content && !p.url`, `filterBy === 'link'` keeps
`p.url`. -/
def applyFilter (filterBy : FilterType) (posts : List Post) : List Post :=
  match filterBy with
  | FilterType.all => posts
  | FilterType.text => posts.filter (fun p => truthyStr p.content && !truthyStr p.url)
  | FilterType.link => posts.filter (fun p => truthyStr p.url)

/-- C8 counterexample: a text post whose content is the empty string (which
the create-post form can produce, since the textarea may be left empty) has
non-null content and null URL, yet the "text" filter drops it; and a post
whose URL is the empty string has a non-null URL, yet the "link" filter drops
it.  So the filters do not return exactly the posts the claim describes. -/
theorem profile_filter_claim_cex :
    ({ id := "p1", title := "t", content := some "", url := none,
       author_id := "a", score := 0, created_at := 0 } : Post).content ≠ none ∧
    ({ id := "p1", title := "t", content := some "", url := none,
       author_id := "a", score := 0, created_at := 0 } : Post).url = none ∧
    applyFilter FilterType.text
        [{ id := "p1", title := "t", content := some "", url := none,
           author_id := "a", score := 0, created_at := 0 }] = [] ∧
    ({ id := "p2", title := "t", content := some "hi", url := some "",
       author_id := "a", score := 0, created_at := 0 } : Post).url ≠ none ∧
    applyFilter FilterType.link
        [{ id := "p2", title := "t", content := some "hi", url := some "",
           author_id := "a", score := 0, created_at := 0 }] = [] := by
  refine ⟨by simp, rfl, rfl, by simp, rfl⟩

/-- C8 (amended): the "text" filter returns exactly the posts whose content is
a non-empty string and whose URL is null or empty, and the "link" filter
returns exactly the posts whose URL is a non-empty string. -/
theorem profile_filter_spec (posts : List Post) (p : Post) :
    (p ∈ applyFilter FilterType.text posts ↔
      p ∈ posts ∧ (∃ s, p.content = some s ∧ s ≠ "") ∧
        (p.url = none ∨ p.url = some "")) ∧
    (p ∈ applyFilter FilterType.link posts ↔
      p ∈ posts ∧ ∃ s, p.url = some s ∧ s ≠ "") := by
  constructor
  · simp only [applyFilter, List.mem_filter, Bool.and_eq_true, Bool.not_eq_true']
    refine and_congr_right fun _ => ?_
    constructor
    · rintro ⟨hc, hu⟩
      refine ⟨?_, ?_⟩
      · match hcs : p.content, hc with
        | some s, hc =>
          simp only [truthyStr, decide_eq_true_eq] at hc
          exact ⟨s, rfl, hc⟩
      · match hus : p.url with
        | none => exact Or.inl rfl
        | some s =>
          rw [hus] at hu
          simp only [truthyStr, decide_eq_false_iff_not, not_not] at hu
          exact Or.inr (by rw [hu])
    · rintro ⟨⟨s, hs, hne⟩, hu⟩
      refine ⟨by simp [hs, truthyStr, hne], ?_⟩
      rcases hu with hu | hu <;> simp [hu, truthyStr]
  · simp only [applyFilter, List.mem_filter]
    refine and_congr_right fun _ => ?_
    constructor
    · intro hu
      match hus : p.url, hu with
      | some s, hu =>
        simp only [truthyStr, decide_eq_true_eq] at hu
        exact ⟨s, rfl, hu⟩
    · rintro ⟨s, hs, hne⟩
      simp [hs, truthyStr, hne]

/-- Post type selected in the create-post form. -/
inductive PostKind where
  | text
  | link
  deriving Repr, DecidableEq

/-- Record inserted into `posts` by `CreatePostForm.handleSubmit`. -/
structure NewPost where
  title : String
  author_id : String
  content : Option String
  url : Option String
  deriving Repr, DecidableEq

/-- Payload built by `CreatePostForm.handleSubmit`:
`content: postType === 'text' ? content.trim() : null` and
`url: postType === 'link' ? url.trim() : null`. -/
def buildPostData (userId : String) (postType : PostKind)
    (title content url : String) : NewPost :=
  { title := title.trim
    author_id := userId
    content := match postType with
      | PostKind.text => some content.trim
      | PostKind.link => none
    url := match postType with
      | PostKind.link => some url.trim
      | PostKind.text => none }

/-- C9: every record built by the create-post operation satisfies the
mutually-exclusive kind invariant: a text post has a null URL, a link post has
null content, and content and URL are never both populated. -/
theorem create_post_kind_exclusive (userId title content url : String) :
    (buildPostData userId PostKind.text title content url).url = none ∧
    (buildPostData userId PostKind.link title content url).content = none ∧
    ∀ postType, ¬((buildPostData userId postType title content url).content ≠ none ∧
      (buildPostData userId postType title content url).url ≠ none) := by
  refine ⟨rfl, rfl, fun postType => ?_⟩
  cases postType <;> simp [buildPostData]

theorem admin_delete_cascade_witness :
    (handleDelete true false true false false "p1"
        { posts := [{ id := "p1", title := "t", content := some "c", url := none,
                      author_id := "a", score := 2, created_at := 0 }],
          votes := [{ id := 0, user_id := "u", post_id := "p1", vote_type := 1 },
                    { id := 1, user_id := "w", post_id := "p1", vote_type := -1 }] }).1.votes.filter
        (fun v => decide (v.post_id = "p1")) = [] :=
  (admin_delete_cascade
    { posts := [{ id := "p1", title := "t", content := some "c", url := none,
                  author_id := "a", score := 2, created_at := 0 }],
      votes := [{ id := 0, user_id := "u", post_id := "p1", vote_type := 1 },
                { id := 1, user_id := "w", post_id := "p1", vote_type := -1 }] }
    "p1").2.2

theorem feed_order_spec_witness :
    (loadPostsOrdered
        [{ id := "p1", title := "t1", content := none, url := none,
           author_id := "a", score := 1, created_at := 10 },
         { id := "p2", title := "t2", content := none, url := none,
           author_id := "a", score := 4, created_at := 5 }]).Perm
      [{ id := "p1", title := "t1", content := none, url := none,
         author_id := "a", score := 1, created_at := 10 },
       { id := "p2", title := "t2", content := none, url := none,
         author_id := "a", score := 4, created_at := 5 }] :=
  (feed_order_spec
    [{ id := "p1", title := "t1", content := none, url := none,
       author_id := "a", score := 1, created_at := 10 },
     { id := "p2", title := "t2", content := none, url := none,
       author_id := "a", score := 4, created_at := 5 }]).1

theorem profile_filter_spec_witness :
    ({ id := "p3", title := "t", content := some "body", url := none,
       author_id := "a", score := 0, created_at := 0 } : Post) ∈
      applyFilter FilterType.text
        [{ id := "p3", title := "t", content := some "body", url := none,
           author_id := "a", score := 0, created_at := 0 }] ↔
    ({ id := "p3", title := "t", content := some "body", url := none,
       author_id := "a", score := 0, created_at := 0 } : Post) ∈
      [({ id := "p3", title := "t", content := some "body", url := none,
          author_id := "a", score := 0, created_at := 0 } : Post)] ∧
    (∃ s, ({ id := "p3", title := "t", content := some "body", url := none,
             author_id := "a", score := 0, created_at := 0 } : Post).content
        = some s ∧ s ≠ "") ∧
    (({ id := "p3", title := "t", content := some "body", url := none,
        author_id := "a", score := 0, created_at := 0 } : Post).url = none ∨
     ({ id := "p3", title := "t", content := some "body", url := none,
        author_id := "a", score := 0, created_at := 0 } : Post).url = some "") :=
  (profile_filter_spec
    [{ id := "p3", title := "t", content := some "body", url := none,
       author_id := "a", score := 0, created_at := 0 }]
    { id := "p3", title := "t", content := some "body", url := none,
      author_id := "a", score := 0, created_at := 0 }).1

theorem create_post_kind_exclusive_witness :
    (buildPostData "u1" PostKind.text "  a title " "hello" "").url = none :=
  (create_post_kind_exclusive "u1" "  a title " "hello" "").1

theorem vote_guard_frame_witness :
    handleVote none true "p1" 1 { votes := [], nextId := 0 }
      = ({ votes := [], nextId := 0 }, []) :=
  (vote_guard_frame { votes := [], nextId := 0 } "p1" 1).1 true
